import Mathlib

/-!
Shallow embedding of `src/server.js`, a civic-issue ("pothole") reporting
HTTP backend: six REST routes over a document store holding `User` and
`Report` collections, plus a directory-backed file store for uploaded
images.

Modelling conventions:
* Request body fields arriving over JSON/multipart are `Option String`
  (`none` = absent).  JavaScript truthiness of such a field (`!x` tests)
  is `truthy`: an absent field and the empty string are falsy, every
  other string is truthy.
* JavaScript numbers produced by `parseFloat` are `JsNum`: either `nan`,
  a signed infinity, or an exact rational (IEEE rounding is irrelevant to
  every property considered here, which only distinguishes null / NaN /
  a parsed value).
* Timestamps (`Date.now` / `new Date()`) are `Nat` milliseconds supplied
  to each handler as an explicit `now` argument; generated document ids
  are explicit `String` arguments.
* The Mongoose document store is modelled as in-memory lists.
  `findByIdAndUpdate` / `findByIdAndDelete` act on the first report whose
  id matches.  Schema validation that the repository declares
  (`required`, `enum` on `severity`, `status`, `role`, with
  `runValidators: true` on the update) is modelled; a validation failure
  surfaces as the handler's catch-all 500 response, exactly as a rejected
  save/update promise does.  Other store failures (connection loss etc.)
  are modelled by explicit boolean oracles where a claim needs them.
* `fs.unlinkSync` may throw; the boolean oracle `unlinkFails` selects
  that outcome.  `fs.existsSync` is membership in the modelled list of
  stored filenames.
-/

/-- JavaScript truthiness of an optional string body field:
`undefined` and `""` are falsy, all other strings truthy. -/
def truthy : Option String → Bool
  | none => false
  | some s => !(s == "")

/-- A JavaScript number as produced by `parseFloat`: NaN, ±Infinity, or a
finite value, held exactly as the scaled decimal `mant * 10 ^ exp10`
read off the literal (IEEE rounding is irrelevant to every property
considered here, which only distinguishes null / NaN / a parsed
value). -/
inductive JsNum where
  | nan : JsNum
  | inf (neg : Bool) : JsNum
  | num (mant : Int) (exp10 : Int) : JsNum
deriving DecidableEq

/-- The exact rational value denoted by a finite `JsNum`. -/
def JsNum.val : JsNum → Option ℚ
  | .nan => none
  | .inf _ => none
  | .num m e => some ((m : ℚ) * (if 0 ≤ e then (10 : ℚ) ^ e.toNat else 1 / (10 : ℚ) ^ (-e).toNat))

/-- JS whitespace skipped by `parseFloat` (ASCII subset). -/
def jsWhitespace (c : Char) : Bool :=
  c = ' ' || c = '\t' || c = '\n' || c = '\r' || c = '\x0b' || c = '\x0c'

/-- Numeric value of a list of decimal digit characters. -/
def digitsToNat (ds : List Char) : Nat :=
  ds.foldl (fun a c => 10 * a + (c.toNat - 48)) 0

/-- Parse an optional leading sign; returns (isNegative, rest). -/
def parseSign : List Char → Bool × List Char
  | '-' :: cs => (true, cs)
  | '+' :: cs => (false, cs)
  | cs => (false, cs)

/-- Parse the optional exponent part `e|E [+|-] digits` of a JS float
literal; an ill-formed exponent is ignored (contributes 0), as in JS. -/
def parseExpPart (cs : List Char) : Int :=
  match cs with
  | c :: rest =>
    if c = 'e' || c = 'E' then
      let (neg, rest1) := parseSign rest
      let ds := rest1.takeWhile Char.isDigit
      if ds.isEmpty then 0
      else if neg then -(digitsToNat ds : Int) else (digitsToNat ds : Int)
    else 0
  | [] => 0

/-- Parse `digits [. digits]`, giving the unsigned mantissa with the
number of fraction digits, and the rest of the input; `none` when no
digit is present at all. -/
def parseMantissa (cs : List Char) : Option (Nat × Nat × List Char) :=
  let ip := cs.takeWhile Char.isDigit
  let r1 := cs.dropWhile Char.isDigit
  match r1 with
  | '.' :: r2 =>
    let fp := r2.takeWhile Char.isDigit
    let r3 := r2.dropWhile Char.isDigit
    if ip.isEmpty && fp.isEmpty then none
    else some (digitsToNat (ip ++ fp), fp.length, r3)
  | _ => if ip.isEmpty then none else some (digitsToNat ip, 0, r1)

/-- JavaScript's global `parseFloat`: skip leading whitespace, optional
sign, then `Infinity` or a decimal mantissa with optional exponent;
trailing garbage is ignored; no parsable prefix gives NaN.  The finite
result `m.ddd... e x` is kept exactly as scaled decimal
`±mddd * 10 ^ (x - fractionDigits)`. -/
def parseFloat (s : String) : JsNum :=
  let cs := s.data.dropWhile jsWhitespace
  let (neg, cs1) := parseSign cs
  if cs1.take 8 = "Infinity".data then JsNum.inf neg
  else
    match parseMantissa cs1 with
    | none => JsNum.nan
    | some (m, fracLen, rest) =>
      JsNum.num (if neg then -(m : Int) else (m : Int)) (parseExpPart rest - (fracLen : Int))

/-- A persisted `User` document (`UserSchema`, src/server.js lines 28-34). -/
structure User where
  fullName : String
  email : String
  username : String
  password : String
  role : String
deriving DecidableEq

/-- The user record with the password stripped, as returned by login
(`const { password: _, ...userWithoutPass } = user.toObject()`). -/
structure UserNoPass where
  fullName : String
  email : String
  username : String
  role : String
deriving DecidableEq

/-- Drop the password field, keeping every other `User` field. -/
def stripPassword (u : User) : UserNoPass :=
  { fullName := u.fullName, email := u.email, username := u.username, role := u.role }

/-- A persisted `Report` document (`ReportSchema`, src/server.js lines
36-48).  `id` is the store-assigned `_id`. -/
structure Report where
  id : String
  reportedBy : String
  location : String
  latitude : Option JsNum
  longitude : Option JsNum
  description : String
  severity : String
  status : String
  imageDescription : Option String
  imageFilename : Option String
  reportedAt : Nat
  resolvedAt : Option Nat
deriving DecidableEq

/-- The whole document store: the `User` and `Report` collections. -/
structure ServerState where
  users : List User
  reports : List Report
deriving DecidableEq

/-- The modelled file store: the set (list) of filenames present in the
`uploads` directory. -/
abbrev FileStore := List String

/-- An HTTP response: either a success with a status code and a JSON
body, or an error with a status code and the `error` message string. -/
inductive ApiResp (α : Type) where
  | ok (code : Nat) (body : α)
  | err (code : Nat) (error : String)
deriving DecidableEq

/-- The `ReportSchema` enum for `status` (line 43). -/
def validStatus (st : String) : Bool :=
  st == "pending" || st == "in-progress" || st == "resolved"

/-- The `ReportSchema` enum for `severity` (line 42). -/
def validSeverity (sv : String) : Bool :=
  sv == "low" || sv == "medium" || sv == "high"

/-- The `UserSchema` enum for `role` (line 33); an absent role defaults. -/
def validRole : Option String → Bool
  | none => true
  | some r => r == "citizen" || r == "admin"

/-- Body of `POST /api/register`. -/
structure RegisterBody where
  fullName : Option String
  email : Option String
  username : Option String
  password : Option String
  role : Option String
deriving DecidableEq

/-- Mongoose `required` validation for the new `User` (a required string
must be present and non-empty) together with the `role` enum. -/
def validRegBody (b : RegisterBody) : Bool :=
  truthy b.fullName && truthy b.email && truthy b.username &&
    truthy b.password && validRole b.role

/-- The `User` document built from a valid registration body, with the
schema default `role: 'citizen'`. -/
def mkUser (b : RegisterBody) : User :=
  { fullName := b.fullName.getD ""
    email := b.email.getD ""
    username := b.username.getD ""
    password := b.password.getD ""
    role := b.role.getD "citizen" }

/-- The unique-index violation test for inserting `b` into the user
collection: some stored user already has the same username or email. -/
def hasDup (s : ServerState) (b : RegisterBody) : Bool :=
  s.users.any (fun u => u.username == b.username.getD "" || u.email == b.email.getD "")

/-- Handler for `POST /api/register` (src/server.js lines 87-98).  Here `storeFail` is the
oracle for a persistence failure other than a uniqueness violation
(e.g. lost connection); schema validation failures likewise reject the
save with an error whose `code` is not 11000, landing in the generic
500 branch. -/
def register (s : ServerState) (b : RegisterBody) (storeFail : Bool) :
    ApiResp String × ServerState :=
  if !validRegBody b then (.err 500 "Registration failed.", s)
  else if storeFail then (.err 500 "Registration failed.", s)
  else if hasDup s b then (.err 409 "Username or email already exists.", s)
  else (.ok 201 "User registered successfully!", { s with users := s.users ++ [mkUser b] })

/-- Translation of `User.findOne` by username: the first stored user with that username. -/
def findOneUser (s : ServerState) (username : String) : Option User :=
  s.users.find? (fun u => u.username == username)

/-- Handler for `POST /api/login` (src/server.js lines 101-113): look the user up by
username, compare the password in plaintext; one shared branch for
"no such user" and "wrong password"; on success return the user with
the password field stripped.  No state is mutated. -/
def login (s : ServerState) (username password : String) : ApiResp UserNoPass :=
  match findOneUser s username with
  | none => .err 401 "Invalid username or password."
  | some u =>
    if u.password != password then .err 401 "Invalid username or password."
    else .ok 200 (stripPassword u)

/-- Descending order on `reportedAt` used by `GET /api/reports`. -/
def reportedAtGe (a b : Report) : Prop := b.reportedAt ≤ a.reportedAt

instance : DecidableRel reportedAtGe := fun a b => Nat.decLe b.reportedAt a.reportedAt

instance : IsTotal Report reportedAtGe := ⟨fun a b => Nat.le_total b.reportedAt a.reportedAt⟩

instance : IsTrans Report reportedAtGe := ⟨fun _ _ _ h1 h2 => Nat.le_trans h2 h1⟩

/-- Handler for `GET /api/reports` (src/server.js lines 116-123):
`Report.find().sort({ reportedAt: -1 })` — every stored report, sorted
by `reportedAt` descending.  No state is mutated. -/
def listReports (s : ServerState) : ApiResp (List Report) :=
  .ok 200 (List.insertionSort reportedAtGe s.reports)

/-- Body of `POST /api/reports` (multipart fields; the uploaded file is
passed separately, as multer delivers it). -/
structure SubmitBody where
  location : Option String
  description : Option String
  severity : Option String
  imageDescription : Option String
  reportedBy : Option String
  latitude : Option String
  longitude : Option String
deriving DecidableEq

/-- The `latitude`/`longitude` coercion of src/server.js lines 143-144:
`latitude ? parseFloat(latitude) : null`.  An absent or empty field is
falsy and yields null; any other string is fed to `parseFloat` (so a
non-numeric one yields NaN, not null). -/
def coerceCoord (v : Option String) : Option JsNum :=
  if truthy v then some (parseFloat (v.getD "")) else none

/-- The `new Report({...})` document of src/server.js lines 136-146:
the body fields, the multer filename, the schema defaults
`status: 'pending'` and unset `resolvedAt`, the explicit
`reportedAt: new Date()`, and the store-assigned id. -/
def mkReport (b : SubmitBody) (file : Option String) (now : Nat) (newId : String) : Report :=
  { id := newId
    reportedBy := b.reportedBy.getD ""
    location := b.location.getD ""
    latitude := coerceCoord b.latitude
    longitude := coerceCoord b.longitude
    description := b.description.getD ""
    severity := b.severity.getD ""
    status := "pending"
    imageDescription := b.imageDescription
    imageFilename := file
    reportedAt := now
    resolvedAt := none }

/-- Handler for `POST /api/reports` (src/server.js lines 126-154).  Here `file` is the
multer-generated stored filename, when an image was uploaded; `now` is
`new Date()`; `newId` the store-assigned id.  Missing (or empty, hence
falsy) required fields give the 400; the schema `severity` enum is
checked at save time, a violation rejecting the save into the 500
branch. -/
def submitReport (s : ServerState) (b : SubmitBody) (file : Option String)
    (now : Nat) (newId : String) : ApiResp Report × ServerState :=
  if truthy b.location && truthy b.description && truthy b.reportedBy && truthy b.severity then
    if validSeverity (mkReport b file now newId).severity then
      (.ok 201 (mkReport b file now newId),
        { s with reports := s.reports ++ [mkReport b file now newId] })
    else (.err 500 "Failed to create report.", s)
  else (.err 400 "Missing required fields (location, description, severity).", s)

/-- The update document of `PUT /api/reports/:id` (src/server.js lines
165-170): replace `status`, and stamp `resolvedAt` with the current
time when the new status is `resolved`, else clear it to null. -/
def applyStatus (st : String) (now : Nat) (r : Report) : Report :=
  { r with status := st, resolvedAt := if st == "resolved" then some now else none }

/-- Translation of `findByIdAndUpdate` with the new-document option on the report collection:
rewrite the first report whose id matches through `f`, returning the
updated document and the new collection (`none` and the unchanged
collection when no id matches). -/
def findByIdAndUpdate (rs : List Report) (id : String) (f : Report → Report) :
    Option Report × List Report :=
  match rs with
  | [] => (none, [])
  | r :: rest =>
    if r.id == id then (some (f r), f r :: rest)
    else
      let (res, rest1) := findByIdAndUpdate rest id f
      (res, r :: rest1)

/-- Handler for `PUT /api/reports/:id` (src/server.js lines 157-186).  A falsy
`status` is the 400; `runValidators: true` makes the schema `status`
enum reject any other value outside {pending, in-progress, resolved},
the rejected promise landing in the catch-all 500 with nothing
updated; a missing id is the 404; otherwise the updated document is
returned. -/
def updateReport (s : ServerState) (id : String) (status : Option String)
    (now : Nat) : ApiResp Report × ServerState :=
  if truthy status then
    if validStatus (status.getD "") then
      match findByIdAndUpdate s.reports id (applyStatus (status.getD "") now) with
      | (none, _) => (.err 404 "Report not found.", s)
      | (some r1, reports1) => (.ok 200 r1, { s with reports := reports1 })
    else (.err 500 "Failed to update report.", s)
  else (.err 400 "Missing required field: status.", s)

/-- Translation of `findByIdAndDelete` on the report collection: remove the first
report whose id matches, returning the deleted document and the
remaining collection. -/
def findByIdAndDelete (rs : List Report) (id : String) :
    Option Report × List Report :=
  match rs with
  | [] => (none, [])
  | r :: rest =>
    if r.id == id then (some r, rest)
    else
      let (res, rest1) := findByIdAndDelete rest id
      (res, r :: rest1)

/-- Handler for `DELETE /api/reports/:id` (src/server.js lines 189-209).  The record
is removed first (`findByIdAndDelete`); then, if it references an
image whose file exists (`fs.existsSync`), `fs.unlinkSync` deletes it.
`unlinkFails` is the oracle for `unlinkSync` throwing, which lands in
the catch-all 500 — after the record was already removed.  A missing
file is skipped silently and the 204 empty success is sent. -/
def deleteReport (s : ServerState) (files : FileStore) (id : String)
    (unlinkFails : Bool) : ApiResp Unit × ServerState × FileStore :=
  match findByIdAndDelete s.reports id with
  | (none, _) => (.err 404 "Report not found.", s, files)
  | (some r, rest) =>
    match r.imageFilename with
    | some f =>
      if f ∈ files then
        if unlinkFails then
          (.err 500 "Failed to delete report.", { s with reports := rest }, files)
        else (.ok 204 (), { s with reports := rest }, files.erase f)
      else (.ok 204 (), { s with reports := rest }, files)
    | none => (.ok 204 (), { s with reports := rest }, files)

/-- One status-update request: target id, the `status` body field, and
the request's wall-clock time. -/
structure UpdateOp where
  id : String
  status : Option String
  now : Nat

/-- Apply a sequence of `PUT /api/reports/:id` requests to the store. -/
def runUpdates (s : ServerState) (ops : List UpdateOp) : ServerState :=
  ops.foldl (fun st op => (updateReport st op.id op.status op.now).2) s

/-- The data-model invariant: `resolvedAt` is non-null iff the status is
`resolved`. -/
def reportInvariant (r : Report) : Prop :=
  r.resolvedAt.isSome = true ↔ r.status = "resolved"

instance (r : Report) : Decidable (reportInvariant r) := by
  unfold reportInvariant; infer_instance

/-- All fields other than `status` and `resolvedAt` agree. -/
def sameExceptStatus (r r1 : Report) : Prop :=
  r1.id = r.id ∧ r1.reportedBy = r.reportedBy ∧ r1.location = r.location ∧
    r1.latitude = r.latitude ∧ r1.longitude = r.longitude ∧
    r1.description = r.description ∧ r1.severity = r.severity ∧
    r1.imageDescription = r.imageDescription ∧ r1.imageFilename = r.imageFilename ∧
    r1.reportedAt = r.reportedAt

/-! ### Concrete example data used to exercise the handlers -/

/-- A store with no users and no reports. -/
def emptyState : ServerState := { users := [], reports := [] }

/-- A pending report without coordinates or image. -/
def exReport : Report :=
  { id := "r1", reportedBy := "alice", location := "Main St", latitude := none,
    longitude := none, description := "Pothole", severity := "high",
    status := "pending", imageDescription := none, imageFilename := none,
    reportedAt := 10, resolvedAt := none }

/-- A store holding just `exReport`. -/
def exState : ServerState := { users := [], reports := [exReport] }

/-- A report referencing a stored image file. -/
def exReportImg : Report := { exReport with id := "r2", imageFilename := some "a.jpg" }

/-- A store holding just `exReportImg`. -/
def exStateImg : ServerState := { users := [], reports := [exReportImg] }

/-- A submission whose latitude field is present but not numeric. -/
def exSubmitAbc : SubmitBody :=
  { location := some "Main St", description := some "Pothole",
    severity := some "high", imageDescription := none, reportedBy := some "alice",
    latitude := some "abc", longitude := none }

/-- The report document created from `exSubmitAbc` at time 0 with id
`id1`: its latitude is NaN, not null. -/
def exSubmitAbcOut : Report :=
  { id := "id1", reportedBy := "alice", location := "Main St",
    latitude := some JsNum.nan, longitude := none, description := "Pothole",
    severity := "high", status := "pending", imageDescription := none,
    imageFilename := none, reportedAt := 0, resolvedAt := none }

/-- A submission with an empty latitude and a numeric longitude. -/
def exSubmitMixed : SubmitBody :=
  { exSubmitAbc with latitude := some "", longitude := some "12.5" }

/-- The report document created from `exSubmitMixed`. -/
def exSubmitMixedOut : Report :=
  { exSubmitAbcOut with latitude := none, longitude := some (JsNum.num 125 (-1)) }

/-- The body `exSubmitAbc` with the location missing. -/
def exSubmitNoLoc : SubmitBody := { exSubmitAbc with location := none }

/-- A registered user. -/
def exUserAlice : User :=
  { fullName := "Alice A", email := "alice@example.com", username := "alice",
    password := "pw1", role := "citizen" }

/-- A store holding just `exUserAlice`. -/
def exUserState : ServerState := { users := [exUserAlice], reports := [] }

/-- A registration body for Alice. -/
def exRegAlice : RegisterBody :=
  { fullName := some "Alice A", email := some "alice@example.com",
    username := some "alice", password := some "pw1", role := none }

/-- A registration body reusing Alice's username with a fresh email. -/
def exRegAlice2 : RegisterBody :=
  { fullName := some "Mallory M", email := some "mallory@example.com",
    username := some "alice", password := some "pw2", role := none }

/-- The report `exReport` after a successful `resolved` update at time 5. -/
def exReportResolved : Report :=
  { exReport with status := "resolved", resolvedAt := some 5 }

/-! ### Basic lemmas about JS truthiness and the handlers -/

theorem truthy_none_eq_false : truthy none = false := rfl

theorem truthy_some_empty : truthy (some "") = false := rfl

theorem truthy_some_iff (v : String) : truthy (some v) = true ↔ v ≠ "" := by
  simp [truthy]

/-- A falsy (absent or empty) required field makes `POST /api/reports`
answer 400 with the store untouched. -/
theorem submitReport_400_of_falsy (s : ServerState) (b : SubmitBody)
    (file : Option String) (now : Nat) (newId : String)
    (h : truthy b.location = false ∨ truthy b.description = false ∨
      truthy b.reportedBy = false ∨ truthy b.severity = false) :
    submitReport s b file now newId =
      (ApiResp.err 400 "Missing required fields (location, description, severity).", s) := by
  unfold submitReport
  rcases h with h | h | h | h <;> simp [h]

/-- A falsy (absent or empty) `status` makes `PUT /api/reports/:id`
answer 400 with the store untouched. -/
theorem updateReport_400_of_falsy (s : ServerState) (id : String)
    (status : Option String) (now : Nat) (h : truthy status = false) :
    updateReport s id status now =
      (ApiResp.err 400 "Missing required field: status.", s) := by
  unfold updateReport
  simp [h]

/-! ### C4: missing required submission fields -/

/-- C4: a submit-report request missing any one of `location`,
`description`, `reportedBy`, or `severity` is answered with a 400
bad-request error and no report document is created — the store is
returned unchanged. -/
theorem submit_missing_field_rejected (s : ServerState) (b : SubmitBody)
    (file : Option String) (now : Nat) (newId : String)
    (h : b.location = none ∨ b.description = none ∨
      b.reportedBy = none ∨ b.severity = none) :
    submitReport s b file now newId =
      (ApiResp.err 400 "Missing required fields (location, description, severity).", s) := by
  apply submitReport_400_of_falsy
  rcases h with h | h | h | h
  · exact Or.inl (by rw [h]; rfl)
  · exact Or.inr (Or.inl (by rw [h]; rfl))
  · exact Or.inr (Or.inr (Or.inl (by rw [h]; rfl)))
  · exact Or.inr (Or.inr (Or.inr (by rw [h]; rfl)))

/-- Witness for C4 at a concrete input: submitting `exSubmitNoLoc`
(no location) to `exState` yields the 400 and the unchanged store. -/
theorem submit_missing_field_rejected_witness :
    submitReport exState exSubmitNoLoc none 7 "id9" =
      (ApiResp.err 400 "Missing required fields (location, description, severity).", exState) :=
  submit_missing_field_rejected exState exSubmitNoLoc none 7 "id9" (Or.inl rfl)

/-! ### C10: empty-string fields behave like absent fields -/

/-- C10: a required submission field (or the update's `status`) that is
present but equal to the empty string is rejected with the same 400
bad-request as an absent field, and the store is unchanged; the
outcome is literally equal to the outcome with that field removed. -/
theorem empty_string_field_like_missing :
    (∀ (s : ServerState) (b : SubmitBody) (file : Option String) (now : Nat) (newId : String),
        (b.location = some "" ∨ b.description = some "" ∨
          b.reportedBy = some "" ∨ b.severity = some "") →
        submitReport s b file now newId =
            (ApiResp.err 400 "Missing required fields (location, description, severity).", s)
          ∧ (submitReport s b file now newId =
              submitReport s { b with location := none } file now newId
            ∨ submitReport s b file now newId =
              submitReport s { b with description := none } file now newId
            ∨ submitReport s b file now newId =
              submitReport s { b with reportedBy := none } file now newId
            ∨ submitReport s b file now newId =
              submitReport s { b with severity := none } file now newId))
  ∧ (∀ (s : ServerState) (id : String) (now : Nat),
        updateReport s id (some "") now = updateReport s id none now
        ∧ updateReport s id (some "") now =
            (ApiResp.err 400 "Missing required field: status.", s)) := by
  constructor
  · intro s b file now newId h
    rcases h with h | h | h | h
    · have h1 := submitReport_400_of_falsy s b file now newId (Or.inl (by rw [h]; rfl))
      have h2 := submitReport_400_of_falsy s { b with location := none } file now newId
        (Or.inl rfl)
      exact ⟨h1, Or.inl (h1.trans h2.symm)⟩
    · have h1 := submitReport_400_of_falsy s b file now newId
        (Or.inr (Or.inl (by rw [h]; rfl)))
      have h2 := submitReport_400_of_falsy s { b with description := none } file now newId
        (Or.inr (Or.inl rfl))
      exact ⟨h1, Or.inr (Or.inl (h1.trans h2.symm))⟩
    · have h1 := submitReport_400_of_falsy s b file now newId
        (Or.inr (Or.inr (Or.inl (by rw [h]; rfl))))
      have h2 := submitReport_400_of_falsy s { b with reportedBy := none } file now newId
        (Or.inr (Or.inr (Or.inl rfl)))
      exact ⟨h1, Or.inr (Or.inr (Or.inl (h1.trans h2.symm)))⟩
    · have h1 := submitReport_400_of_falsy s b file now newId
        (Or.inr (Or.inr (Or.inr (by rw [h]; rfl))))
      have h2 := submitReport_400_of_falsy s { b with severity := none } file now newId
        (Or.inr (Or.inr (Or.inr rfl)))
      exact ⟨h1, Or.inr (Or.inr (Or.inr (h1.trans h2.symm)))⟩
  · intro s id now
    have h1 := updateReport_400_of_falsy s id (some "") now rfl
    have h2 := updateReport_400_of_falsy s id none now rfl
    exact ⟨h1.trans h2.symm, h1⟩

/-- Witness for C10 at a concrete input: an empty `status` on `exState`
gives the same 400 outcome as an absent one. -/
theorem empty_string_field_like_missing_witness :
    updateReport exState "r1" (some "") 3 = updateReport exState "r1" none 3
    ∧ updateReport exState "r1" (some "") 3 =
        (ApiResp.err 400 "Missing required field: status.", exState) :=
  empty_string_field_like_missing.2 exState "r1" 3

/-! ### C7: listing returns all reports sorted by reportedAt descending -/

/-- C7: `GET /api/reports` answers 200 with a permutation of all stored
reports that is sorted by `reportedAt` descending (pairwise, each
entry's timestamp is at least every later entry's, so a report with an
earlier timestamp than the others necessarily comes after them). -/
theorem list_reports_sorted_descending (s : ServerState) :
    ∃ l, listReports s = ApiResp.ok 200 l
      ∧ List.Perm l s.reports ∧ List.Pairwise reportedAtGe l :=
  ⟨List.insertionSort reportedAtGe s.reports, rfl,
    List.perm_insertionSort reportedAtGe s.reports,
    List.sorted_insertionSort reportedAtGe s.reports⟩

/-! ### C5: login is uniform on failure and never leaks the password -/

/-- The lookup `findOneUser` returns nothing when no stored user has the username. -/
theorem findOneUser_eq_none (s : ServerState) (un : String)
    (h : ∀ u ∈ s.users, u.username ≠ un) : findOneUser s un = none := by
  unfold findOneUser
  rw [List.find?_eq_none]
  intro u hu
  simpa using h u hu

/-- C5: a login with a nonexistent username and a login with an existing
username but wrong password produce the byte-for-byte identical 401
response (so the caller cannot distinguish them); a successful login's
body is the found user passed through `stripPassword`, whose output
has no password field — it is invariant under the stored password. -/
theorem login_unauthorized_uniform :
    (∀ (s : ServerState) (un p : String),
        (∀ u ∈ s.users, u.username ≠ un) →
        login s un p = ApiResp.err 401 "Invalid username or password.")
  ∧ (∀ (s : ServerState) (un p : String) (u : User),
        findOneUser s un = some u → u.password ≠ p →
        login s un p = ApiResp.err 401 "Invalid username or password.")
  ∧ (∀ (s1 : ServerState) (un1 p1 : String) (u : User)
        (s2 : ServerState) (un2 p2 : String),
        findOneUser s1 un1 = some u → u.password ≠ p1 →
        (∀ v ∈ s2.users, v.username ≠ un2) →
        login s1 un1 p1 = login s2 un2 p2)
  ∧ (∀ (s : ServerState) (un p : String) (r : UserNoPass),
        login s un p = ApiResp.ok 200 r →
        ∃ u, findOneUser s un = some u ∧ r = stripPassword u)
  ∧ (∀ (u : User) (pw : String),
        stripPassword { u with password := pw } = stripPassword u) := by
  have hmiss : ∀ (s : ServerState) (un p : String),
      (∀ u ∈ s.users, u.username ≠ un) →
      login s un p = ApiResp.err 401 "Invalid username or password." := by
    intro s un p h
    unfold login
    rw [findOneUser_eq_none s un h]
  have hwrong : ∀ (s : ServerState) (un p : String) (u : User),
      findOneUser s un = some u → u.password ≠ p →
      login s un p = ApiResp.err 401 "Invalid username or password." := by
    intro s un p u hf hp
    unfold login
    rw [hf]
    simp [hp]
  refine ⟨hmiss, hwrong, ?_, ?_, ?_⟩
  · intro s1 un1 p1 u s2 un2 p2 hf hp h2
    rw [hwrong s1 un1 p1 u hf hp, hmiss s2 un2 p2 h2]
  · intro s un p r h
    unfold login at h
    cases hf : findOneUser s un with
    | none => rw [hf] at h; exact absurd h (by simp)
    | some u =>
      rw [hf] at h
      by_cases hp : u.password = p
      · refine ⟨u, rfl, ?_⟩
        simp [hp] at h
        exact h.symm
      · simp [hp] at h
  · intro u pw
    rfl

/-- Witness for C5 at concrete inputs: a wrong password for the stored
user `alice` and a login against an empty user store yield the same
response. -/
theorem login_unauthorized_uniform_witness :
    login exUserState "alice" "wrong" = login emptyState "alice" "pw1" :=
  login_unauthorized_uniform.2.2.1 exUserState "alice" "wrong" exUserAlice
    emptyState "alice" "pw1" (by decide) (by decide) (by decide)

/-! ### C6: duplicate registration conflicts; other failures are 500 -/

/-- C6: after a successful registration of `b1`, registering any valid
`b2` that reuses `b1`'s username or email yields the 409 conflict and
leaves the store — in particular `b1`'s stored user — untouched; and
any persistence failure other than a uniqueness violation (the
`storeFail` oracle, or a schema-validation rejection) yields the
generic 500 registration-failed response with the store unchanged. -/
theorem register_duplicate_conflict :
    (∀ (s : ServerState) (b1 b2 : RegisterBody),
        validRegBody b1 = true → hasDup s b1 = false → validRegBody b2 = true →
        (b2.username = b1.username ∨ b2.email = b1.email) →
        register ((register s b1 false).2) b2 false =
            (ApiResp.err 409 "Username or email already exists.", (register s b1 false).2)
          ∧ mkUser b1 ∈ ((register s b1 false).2).users
          ∧ (register s b1 false).1 = ApiResp.ok 201 "User registered successfully!")
  ∧ (∀ (s : ServerState) (b : RegisterBody),
        register s b true = (ApiResp.err 500 "Registration failed.", s)) := by
  constructor
  · intro s b1 b2 hv1 hd1 hv2 hreuse
    have h1 : register s b1 false =
        (ApiResp.ok 201 "User registered successfully!",
          { s with users := s.users ++ [mkUser b1] }) := by
      unfold register
      simp [hv1, hd1]
    have hdup2 : hasDup { s with users := s.users ++ [mkUser b1] } b2 = true := by
      unfold hasDup
      rw [List.any_eq_true]
      refine ⟨mkUser b1, by simp, ?_⟩
      rcases hreuse with h | h
      · apply Bool.or_eq_true_iff.mpr
        left
        simp [mkUser, h]
      · apply Bool.or_eq_true_iff.mpr
        right
        simp [mkUser, h]
    rw [h1]
    refine ⟨?_, by simp, rfl⟩
    unfold register
    simp [hv2, hdup2]
  · intro s b
    unfold register
    cases hv : validRegBody b <;> simp [hv]

/-- Witness for C6 at concrete inputs: registering Alice into an empty
store succeeds, and a second registration reusing the username
`alice` is answered 409 with the store unchanged. -/
theorem register_duplicate_conflict_witness :
    register ((register emptyState exRegAlice false).2) exRegAlice2 false =
        (ApiResp.err 409 "Username or email already exists.",
          (register emptyState exRegAlice false).2)
      ∧ mkUser exRegAlice ∈ ((register emptyState exRegAlice false).2).users
      ∧ (register emptyState exRegAlice false).1 =
          ApiResp.ok 201 "User registered successfully!" :=
  register_duplicate_conflict.1 emptyState exRegAlice exRegAlice2
    (by decide) (by decide) (by decide) (Or.inl rfl)

/-! ### Structure lemmas for the by-id store operations -/

/-- The operation `findByIdAndUpdate` either misses (returning the collection
unchanged) or rewrites exactly the first report whose id matches. -/
theorem findByIdAndUpdate_spec (rs : List Report) (id : String) (f : Report → Report) :
    findByIdAndUpdate rs id f = (none, rs)
    ∨ ∃ l1 r l2, rs = l1 ++ r :: l2 ∧ r.id = id ∧
        findByIdAndUpdate rs id f = (some (f r), l1 ++ f r :: l2) := by
  induction rs with
  | nil => exact Or.inl rfl
  | cons a rest ih =>
    cases ha : a.id == id with
    | true =>
      right
      refine ⟨[], a, rest, rfl, by simpa using ha, ?_⟩
      unfold findByIdAndUpdate
      simp [ha]
    | false =>
      rcases ih with h | ⟨l1, r, l2, hrs, hid, heq⟩
      · left
        unfold findByIdAndUpdate
        simp [ha, h]
      · right
        refine ⟨a :: l1, r, l2, by rw [hrs]; rfl, hid, ?_⟩
        unfold findByIdAndUpdate
        simp [ha, heq]

/-- The operation `findByIdAndDelete` either misses (returning the collection
unchanged) or removes exactly the first report whose id matches. -/
theorem findByIdAndDelete_spec (rs : List Report) (id : String) :
    findByIdAndDelete rs id = (none, rs)
    ∨ ∃ l1 r l2, rs = l1 ++ r :: l2 ∧ r.id = id ∧
        findByIdAndDelete rs id = (some r, l1 ++ l2) := by
  induction rs with
  | nil => exact Or.inl rfl
  | cons a rest ih =>
    cases ha : a.id == id with
    | true =>
      right
      refine ⟨[], a, rest, rfl, by simpa using ha, ?_⟩
      unfold findByIdAndDelete
      simp [ha]
    | false =>
      rcases ih with h | ⟨l1, r, l2, hrs, hid, heq⟩
      · left
        unfold findByIdAndDelete
        simp [ha, h]
      · right
        refine ⟨a :: l1, r, l2, by rw [hrs]; rfl, hid, ?_⟩
        unfold findByIdAndDelete
        simp [ha, heq]

/-! ### C1: resolvedAt is non-null iff status is resolved -/

/-- The update document always re-establishes the invariant: it writes
`resolvedAt` non-null exactly when it writes status `resolved`. -/
theorem applyStatus_invariant (st : String) (now : Nat) (r : Report) :
    reportInvariant (applyStatus st now r) := by
  unfold reportInvariant applyStatus
  cases h : st == "resolved" <;> simp_all

/-- Rewriting one report through an invariant-preserving `f` keeps the
whole collection invariant. -/
theorem findByIdAndUpdate_invariant (rs : List Report) (id : String)
    (f : Report → Report) (hf : ∀ r, reportInvariant (f r))
    (h : ∀ r ∈ rs, reportInvariant r) :
    ∀ r ∈ (findByIdAndUpdate rs id f).2, reportInvariant r := by
  rcases findByIdAndUpdate_spec rs id f with heq | ⟨l1, r, l2, hrs, _, heq⟩
  · rw [heq]
    exact h
  · rw [heq]
    intro x hx
    rcases List.mem_append.mp hx with hx | hx
    · exact h x (by rw [hrs]; exact List.mem_append_left _ hx)
    · rcases List.mem_cons.mp hx with hx | hx
      · rw [hx]; exact hf r
      · exact h x (by rw [hrs]; exact List.mem_append_right _ (List.mem_cons_of_mem _ hx))

/-- One status-update request keeps every stored report invariant. -/
theorem updateReport_invariant (s : ServerState) (id : String)
    (st : Option String) (now : Nat)
    (h : ∀ r ∈ s.reports, reportInvariant r) :
    ∀ r ∈ ((updateReport s id st now).2).reports, reportInvariant r := by
  unfold updateReport
  split
  · split
    · rcases hp : findByIdAndUpdate s.reports id (applyStatus (st.getD "") now) with ⟨o, l⟩
      cases o with
      | none => simpa using h
      | some r1 =>
        have := findByIdAndUpdate_invariant s.reports id (applyStatus (st.getD "") now)
          (fun r => applyStatus_invariant _ now r) h
        rw [hp] at this
        simpa using this
    · exact h
  · exact h

/-- C1: every report created by the submission endpoint starts with
status `pending` and null `resolvedAt`; a successful status update to
`resolved` stamps `resolvedAt` with the request time while any other
successful update clears it to null unconditionally; hence along every
sequence of status-update operations every stored report satisfies
`resolvedAt` non-null iff `status = resolved`. -/
theorem resolvedAt_iff_status_resolved :
    (∀ (s : ServerState) (ops : List UpdateOp),
        (∀ r ∈ s.reports, reportInvariant r) →
        ∀ r ∈ (runUpdates s ops).reports, reportInvariant r)
  ∧ (∀ (s : ServerState) (b : SubmitBody) (file : Option String) (now : Nat)
        (newId : String) (r : Report) (s1 : ServerState),
        submitReport s b file now newId = (ApiResp.ok 201 r, s1) →
        r.status = "pending" ∧ r.resolvedAt = none)
  ∧ (∀ (s : ServerState) (id v : String) (now : Nat) (r1 : Report),
        (updateReport s id (some v) now).1 = ApiResp.ok 200 r1 →
        (v = "resolved" → r1.status = "resolved" ∧ r1.resolvedAt = some now)
        ∧ (v ≠ "resolved" → r1.status = v ∧ r1.resolvedAt = none)) := by
  refine ⟨?_, ?_, ?_⟩
  · intro s ops
    induction ops generalizing s with
    | nil => intro h; simpa [runUpdates] using h
    | cons op rest ih =>
      intro h
      have hstep := updateReport_invariant s op.id op.status op.now h
      have := ih ((updateReport s op.id op.status op.now).2) hstep
      simpa [runUpdates] using this
  · intro s b file now newId r s1 h
    unfold submitReport at h
    split at h
    · split at h
      · obtain ⟨h1, _⟩ := Prod.mk.injEq .. |>.mp h
        obtain ⟨_, h3⟩ := ApiResp.ok.injEq .. |>.mp h1
        rw [← h3]
        exact ⟨rfl, rfl⟩
      · exact absurd h (by simp)
    · exact absurd h (by simp)
  · intro s id v now r1 h
    unfold updateReport at h
    split at h
    · split at h
      · rcases hp : findByIdAndUpdate s.reports id (applyStatus ((some v).getD "") now)
          with ⟨o, l⟩
        rw [hp] at h
        cases o with
        | none => exact absurd h (by simp)
        | some r2 =>
          simp only [ApiResp.ok.injEq] at h
          rcases findByIdAndUpdate_spec s.reports id (applyStatus ((some v).getD "") now)
            with heq | ⟨l1, r0, l2, _, _, heq⟩
          · rw [heq] at hp
            exact absurd (Prod.mk.injEq .. |>.mp hp).1 (by simp)
          · rw [heq] at hp
            have hr2 : r2 = applyStatus v now r0 := by
              have := (Prod.mk.injEq .. |>.mp hp).1
              simpa using this.symm
            rw [← h.2, hr2]
            constructor
            · intro hv
              subst hv
              exact ⟨rfl, rfl⟩
            · intro hv
              have hne : (v == "resolved") = false := by simpa using hv
              unfold applyStatus
              simp [hne]
      · exact absurd h (by simp)
    · exact absurd h (by simp)

/-- Witness for C1 at a concrete input: resolving `exReport` at time 5
through `runUpdates` leaves a store whose (single) report satisfies
the invariant. -/
theorem resolvedAt_iff_status_resolved_witness :
    reportInvariant exReportResolved :=
  resolvedAt_iff_status_resolved.1 exState [⟨"r1", some "resolved", 5⟩]
    (by decide) exReportResolved (by decide)

/-! ### C8: response classes of the status-update endpoint -/

/-- A status inside the schema enum is in particular non-empty, hence
truthy. -/
theorem validStatus_truthy (v : String) (h : validStatus v = true) :
    truthy (some v) = true := by
  unfold validStatus at h
  rcases Bool.or_eq_true_iff.mp h with h1 | h2
  · rcases Bool.or_eq_true_iff.mp h1 with h3 | h4
    · rw [show v = "pending" by simpa using h3]; rfl
    · rw [show v = "in-progress" by simpa using h4]; rfl
  · rw [show v = "resolved" by simpa using h2]; rfl

/-- C8 (amended): an absent or empty `status` is answered 400; a
non-empty `status` outside {pending, in-progress, resolved} fails the
schema validation and is answered 500 with nothing updated (regardless
of the id); a valid `status` whose id matches no stored report is
answered 404; a valid `status` on a matching id is answered 200 with
the full updated report. -/
theorem update_status_response_classes :
    (∀ (s : ServerState) (id : String) (st : Option String) (now : Nat),
        truthy st = false →
        updateReport s id st now = (ApiResp.err 400 "Missing required field: status.", s))
  ∧ (∀ (s : ServerState) (id v : String) (now : Nat),
        v ≠ "" → validStatus v = false →
        updateReport s id (some v) now = (ApiResp.err 500 "Failed to update report.", s))
  ∧ (∀ (s : ServerState) (id v : String) (now : Nat),
        validStatus v = true →
        (findByIdAndUpdate s.reports id (applyStatus v now)).1 = none →
        updateReport s id (some v) now = (ApiResp.err 404 "Report not found.", s))
  ∧ (∀ (s : ServerState) (id v : String) (now : Nat) (r1 : Report) (rs1 : List Report),
        validStatus v = true →
        findByIdAndUpdate s.reports id (applyStatus v now) = (some r1, rs1) →
        updateReport s id (some v) now = (ApiResp.ok 200 r1, { s with reports := rs1 })) := by
  refine ⟨?_, ?_, ?_, ?_⟩
  · exact fun s id st now h => updateReport_400_of_falsy s id st now h
  · intro s id v now hne hv
    unfold updateReport
    have ht : truthy (some v) = true := by simpa [truthy] using hne
    simp [ht, hv]
  · intro s id v now hv hfind
    unfold updateReport
    rcases hp : findByIdAndUpdate s.reports id (applyStatus v now) with ⟨o, l⟩
    rw [hp] at hfind
    simp only at hfind
    subst hfind
    simp [validStatus_truthy v hv, hv, hp]
  · intro s id v now r1 rs1 hv hfind
    unfold updateReport
    simp [validStatus_truthy v hv, hv, hfind]

/-- Counterexample for C8 as frozen: the claim says a request whose
`status` is present and whose id matches a stored report is answered
with the full updated report; but `status = "bogus"` on the stored
report `r1` is answered 500 (the schema enum rejects it via
`runValidators`) and nothing is updated. -/
theorem update_present_status_not_updated :
    updateReport exState "r1" (some "bogus") 5 =
      (ApiResp.err 500 "Failed to update report.", exState) := by decide

/-- Witness for C8 at a concrete input: a valid status with an unknown
id on the empty store is answered 404. -/
theorem update_status_response_classes_witness :
    updateReport emptyState "zzz" (some "resolved") 5 =
      (ApiResp.err 404 "Report not found.", emptyState) :=
  update_status_response_classes.2.2.1 emptyState "zzz" "resolved" 5 (by decide) (by decide)

/-! ### C9: only the status-update endpoint mutates an existing report -/

/-- C9: a status update leaves the user collection alone and either
leaves the store untouched or rewrites exactly one report — the first
with the requested id — through `applyStatus`, which changes nothing
but `status` and `resolvedAt`; registration never touches the report
collection; submission at most appends one new report, leaving every
existing one in place; deletion leaves the surviving reports unchanged
(the post-collection is a sublist of the pre-collection) and never
touches users. -/
theorem only_status_update_mutates :
    (∀ (s : ServerState) (id : String) (st : Option String) (now : Nat),
        ((updateReport s id st now).2).users = s.users)
  ∧ (∀ (s : ServerState) (id : String) (st : Option String) (now : Nat),
        (updateReport s id st now).2 = s
        ∨ ∃ v l1 r l2, st = some v ∧ validStatus v = true ∧
            s.reports = l1 ++ r :: l2 ∧ r.id = id ∧
            (updateReport s id st now).2 =
              { s with reports := l1 ++ applyStatus v now r :: l2 })
  ∧ (∀ (v : String) (now : Nat) (r : Report), sameExceptStatus r (applyStatus v now r))
  ∧ (∀ (s : ServerState) (b : RegisterBody) (fail : Bool),
        ((register s b fail).2).reports = s.reports)
  ∧ (∀ (s : ServerState) (b : SubmitBody) (file : Option String) (now : Nat)
        (newId : String),
        ((submitReport s b file now newId).2).reports = s.reports
        ∨ ((submitReport s b file now newId).2).reports =
            s.reports ++ [mkReport b file now newId])
  ∧ (∀ (s : ServerState) (files : FileStore) (id : String) (uf : Bool),
        List.Sublist (((deleteReport s files id uf).2.1).reports) s.reports
        ∧ ((deleteReport s files id uf).2.1).users = s.users) := by
  refine ⟨?_, ?_, ?_, ?_, ?_, ?_⟩
  · intro s id st now
    unfold updateReport
    split
    · split
      · rcases hp : findByIdAndUpdate s.reports id (applyStatus (st.getD "") now) with ⟨o, l⟩
        cases o <;> simp
      · rfl
    · rfl
  · intro s id st now
    cases st with
    | none =>
      left
      rw [updateReport_400_of_falsy s id none now rfl]
    | some v =>
      cases ht : truthy (some v) with
      | false =>
        left
        rw [updateReport_400_of_falsy s id (some v) now ht]
      | true =>
        cases hv : validStatus v with
        | false =>
          left
          unfold updateReport
          simp [ht, hv]
        | true =>
          rcases findByIdAndUpdate_spec s.reports id (applyStatus v now)
            with heq | ⟨l1, r, l2, hrs, hid, heq⟩
          · left
            unfold updateReport
            simp [ht, hv, heq]
          · right
            refine ⟨v, l1, r, l2, rfl, hv, hrs, hid, ?_⟩
            unfold updateReport
            simp [ht, hv, heq]
  · intro v now r
    exact ⟨rfl, rfl, rfl, rfl, rfl, rfl, rfl, rfl, rfl, rfl⟩
  · intro s b fail
    unfold register
    split
    · rfl
    · split
      · rfl
      · split <;> rfl
  · intro s b file now newId
    unfold submitReport
    split
    · split
      · right; rfl
      · left; rfl
    · left; rfl
  · intro s files id uf
    unfold deleteReport
    rcases findByIdAndDelete_spec s.reports id with heq | ⟨l1, r, l2, hrs, _, heq⟩
    · rw [heq]
      exact ⟨List.Sublist.refl _, rfl⟩
    · rw [heq]
      have hsub : List.Sublist (l1 ++ l2) s.reports := by
        rw [hrs]
        exact List.Sublist.append_left (List.sublist_cons_self r l2) l1
      cases hi : r.imageFilename with
      | none =>
        simp [hi]
        exact hsub
      | some f =>
        by_cases hf : f ∈ files
        · cases uf <;> simp [hi, hf] <;> exact hsub
        · simp [hi, hf]
          exact hsub

/-! ### C3: delete always removes the record; unlink failure is surfaced -/

/-- C3 (amended): when no stored report has the id, delete answers 404
touching nothing.  When one does, the record is removed from the store
in every case; a report without an image, or whose image file is
absent from the file store, is answered 204 with the file store
untouched (a missing file is silently skipped); when the file exists
and unlink succeeds the file is removed and 204 returned; but when
unlink throws, the caller receives a 500 — the file-deletion failure
IS surfaced, although the record deletion has already happened. -/
theorem delete_always_removes_record :
    (∀ (s : ServerState) (files : FileStore) (id : String) (uf : Bool),
        (findByIdAndDelete s.reports id).1 = none →
        deleteReport s files id uf = (ApiResp.err 404 "Report not found.", s, files))
  ∧ (∀ (s : ServerState) (files : FileStore) (id : String) (uf : Bool)
        (r : Report) (rest : List Report),
        findByIdAndDelete s.reports id = (some r, rest) →
        ((deleteReport s files id uf).2.1 = { s with reports := rest })
        ∧ (r.imageFilename = none →
            deleteReport s files id uf =
              (ApiResp.ok 204 (), { s with reports := rest }, files))
        ∧ (∀ f, r.imageFilename = some f → f ∉ files →
            deleteReport s files id uf =
              (ApiResp.ok 204 (), { s with reports := rest }, files))
        ∧ (∀ f, r.imageFilename = some f → f ∈ files → uf = false →
            deleteReport s files id uf =
              (ApiResp.ok 204 (), { s with reports := rest }, files.erase f))
        ∧ (∀ f, r.imageFilename = some f → f ∈ files → uf = true →
            deleteReport s files id uf =
              (ApiResp.err 500 "Failed to delete report.", { s with reports := rest }, files))) := by
  constructor
  · intro s files id uf h
    unfold deleteReport
    rcases hp : findByIdAndDelete s.reports id with ⟨o, l⟩
    rw [hp] at h
    simp only at h
    subst h
    simp
  · intro s files id uf r rest hfind
    unfold deleteReport
    rw [hfind]
    dsimp only
    refine ⟨?_, ?_, ?_, ?_, ?_⟩
    · cases r.imageFilename with
      | none => rfl
      | some f =>
        by_cases hf : f ∈ files
        · cases uf <;> simp [hf]
        · simp [hf]
    · intro h
      rw [h]
    · intro f h hf
      rw [h]
      simp [hf]
    · intro f h hf huf
      rw [h, huf]
      simp [hf]
    · intro f h hf huf
      rw [h, huf]
      simp [hf]

/-- Counterexample for C3 as frozen: the claim says a found report is
always answered 204 and a file-deletion failure is not reported; but
deleting `r2`, whose image file exists while `unlinkSync` throws, is
answered 500 (the failure is surfaced to the caller) — the record
itself was nonetheless already removed. -/
theorem delete_unlink_failure_answers_500 :
    deleteReport exStateImg ["a.jpg"] "r2" true =
      (ApiResp.err 500 "Failed to delete report.",
        { users := [], reports := [] }, ["a.jpg"]) := by decide

/-- Witness for C3 at a concrete input: deleting `r2` when the unlink
succeeds removes the record and the file and answers 204. -/
theorem delete_always_removes_record_witness :
    deleteReport exStateImg ["a.jpg"] "r2" false =
      (ApiResp.ok 204 (), { exStateImg with reports := ([] : List Report) },
        List.erase ["a.jpg"] "a.jpg") :=
  ((delete_always_removes_record.2 exStateImg ["a.jpg"] "r2" false exReportImg []
      (by decide)).2.2.2.1) "a.jpg" (by decide) (by decide) rfl

/-! ### C2: latitude/longitude coercion on submission -/

/-- Inversion of a successful submission: the 201 body is exactly the
document built by `mkReport`, and the store got it appended. -/
theorem submitReport_ok_inv (s : ServerState) (b : SubmitBody) (file : Option String)
    (now : Nat) (newId : String) (r : Report) (s1 : ServerState)
    (h : submitReport s b file now newId = (ApiResp.ok 201 r, s1)) :
    r = mkReport b file now newId ∧ s1 = { s with reports := s.reports ++ [r] } := by
  unfold submitReport at h
  split at h
  · split at h
    · obtain ⟨h1, h2⟩ := Prod.mk.injEq .. |>.mp h
      obtain ⟨-, h3⟩ := ApiResp.ok.injEq .. |>.mp h1
      subst h3
      exact ⟨rfl, h2.symm⟩
    · exact absurd h (by simp)
  · exact absurd h (by simp)

/-- An absent or empty coordinate field coerces to null. -/
theorem coerceCoord_falsy (v : Option String) (h : v = none ∨ v = some "") :
    coerceCoord v = none := by
  rcases h with h | h <;> subst h <;> rfl

/-- A present non-empty coordinate field coerces to its `parseFloat`
result (NaN when the string is not numeric — never null). -/
theorem coerceCoord_nonempty (v : String) (h : v ≠ "") :
    coerceCoord (some v) = some (parseFloat v) := by
  unfold coerceCoord
  simp [truthy, h]

/-- C2 (amended): in every successfully created report, an absent or
empty latitude/longitude input yields null for the field (not an
error), while a present non-empty input yields exactly its
`parseFloat` value — so a non-numeric non-empty input yields NaN
rather than null. -/
theorem submit_coordinate_parsing (s : ServerState) (b : SubmitBody)
    (file : Option String) (now : Nat) (newId : String) (r : Report) (s1 : ServerState)
    (h : submitReport s b file now newId = (ApiResp.ok 201 r, s1)) :
    ((b.latitude = none ∨ b.latitude = some "") → r.latitude = none)
    ∧ (∀ v, b.latitude = some v → v ≠ "" → r.latitude = some (parseFloat v))
    ∧ ((b.longitude = none ∨ b.longitude = some "") → r.longitude = none)
    ∧ (∀ v, b.longitude = some v → v ≠ "" → r.longitude = some (parseFloat v)) := by
  obtain ⟨hr, -⟩ := submitReport_ok_inv s b file now newId r s1 h
  subst hr
  refine ⟨?_, ?_, ?_, ?_⟩
  · intro hv
    exact coerceCoord_falsy _ hv
  · intro v hv hne
    show coerceCoord b.latitude = some (parseFloat v)
    rw [hv]
    exact coerceCoord_nonempty v hne
  · intro hv
    exact coerceCoord_falsy _ hv
  · intro v hv hne
    show coerceCoord b.longitude = some (parseFloat v)
    rw [hv]
    exact coerceCoord_nonempty v hne

/-- Counterexample for C2 as frozen: the claim says a non-numeric
latitude yields null for the field; but submitting `exSubmitAbc`
(latitude `"abc"`, all required fields present) creates the report
with latitude NaN — which is not null. -/
theorem submit_nonnumeric_latitude_is_nan :
    (submitReport exState exSubmitAbc none 0 "id1").1 = ApiResp.ok 201 exSubmitAbcOut
    ∧ exSubmitAbcOut.latitude = some JsNum.nan
    ∧ some JsNum.nan ≠ (none : Option JsNum) := by decide

/-- Witness for C2 at a concrete input: submitting `exSubmitMixed`
(empty latitude, longitude `"12.5"`) yields null latitude and the
parsed longitude. -/
theorem submit_coordinate_parsing_witness :
    exSubmitMixedOut.latitude = none
    ∧ exSubmitMixedOut.longitude = some (parseFloat "12.5") := by
  have h := submit_coordinate_parsing exState exSubmitMixed none 0 "id1" exSubmitMixedOut
    { exState with reports := exState.reports ++ [exSubmitMixedOut] } (by decide)
  exact ⟨h.1 (Or.inr rfl), h.2.2.2 "12.5" rfl (by decide)⟩
